import Mathlib

/-!
Shallow embedding of the voterbowl contest-entry and prize-issuance engine
(src/server/vb/models.py, src/server/vb/ops.py, src/server/vb/views.py and
src/server/utils/agcod.py), together with theorems settling the frozen
claims about it.

Conventions:
- Database rows are plain structures; primary keys and foreign keys are Nat.
- Timestamps are instants on a total order, modelled as Int.
- Randomness (secrets.randbelow, make_token) is passed in explicitly: each
  operation that consumes randomness takes the drawn value as an argument.
- Fallible Python code (raised exceptions) is modelled with Except.
- The database is a DB structure holding the row lists; Django save and
  create calls become explicit state passing.
-/

namespace Voterbowl

/-- The four kinds of contests (models.ContestKind). -/
inductive ContestKind
  | giveaway
  | dice_roll
  | single_winner
  | no_prize
deriving DecidableEq, Repr

/-- A contest row (models.Contest): only the fields read by the entry and
prize logic are embedded. -/
structure Contest where
  id : Nat
  school : Nat
  start_at : Int
  end_at : Int
  kind : ContestKind
  in_n : Int
  amount : Int
deriving DecidableEq, Repr

/-- models.Contest.is_dice_roll -/
def Contest.is_dice_roll (c : Contest) : Bool :=
  decide (c.kind = ContestKind.dice_roll)

/-- models.Contest.is_giveaway -/
def Contest.is_giveaway (c : Contest) : Bool :=
  decide (c.kind = ContestKind.giveaway)

/-- models.Contest.is_single_winner -/
def Contest.is_single_winner (c : Contest) : Bool :=
  decide (c.kind = ContestKind.single_winner)

/-- models.Contest.is_no_prize -/
def Contest.is_no_prize (c : Contest) : Bool :=
  decide (c.kind = ContestKind.no_prize)

/-- models.Contest.is_upcoming: start_at > when. -/
def Contest.is_upcoming (c : Contest) (when : Int) : Bool :=
  decide (c.start_at > when)

/-- models.Contest.is_ongoing: start_at <= when < end_at. -/
def Contest.is_ongoing (c : Contest) (when : Int) : Bool :=
  decide (c.start_at ≤ when ∧ when < c.end_at)

/-- models.Contest.is_past: end_at <= when. -/
def Contest.is_past (c : Contest) (when : Int) : Bool :=
  decide (c.end_at ≤ when)

/-- models.Contest.roll_die_and_get_winnings. The value drawn by
secrets.randbelow(self.in_n) is supplied as the argument r; the
randbelow contract (0 ≤ r < in_n, and in_n > 0 on the dice-roll branch)
appears as a hypothesis of the theorems about the dice-roll case. -/
def Contest.roll_die_and_get_winnings (c : Contest) (r : Int) : Int × Int :=
  if c.is_no_prize || c.is_single_winner then (1, 0)
  else if c.is_giveaway then (0, c.amount)
  else
    (r, if r = 0 then c.amount else 0)

/-- A student row (models.Student): the fields read by the entry,
validation and prize logic. -/
structure Student where
  id : Nat
  school : Nat
  email : String
  other_emails : List String
  email_validated_at : Option Int
deriving DecidableEq, Repr

/-- models.Student.is_validated -/
def Student.is_validated (s : Student) : Bool :=
  s.email_validated_at.isSome || decide (s.other_emails.length > 0)

/-- models.Student.mark_validated. The Python set built from
other_emails + [email(primary)] + [email] is modelled as a de-duplicated
list; removal of the new primary is a filter. email_validated_at is kept
if already set, otherwise set to when (the Python x or y idiom on an
always-truthy datetime). -/
def Student.mark_validated (s : Student) (email : String) (when : Int) : Student :=
  let all_emails := (s.other_emails ++ [s.email] ++ [email]).eraseDups
  { s with
    email := email,
    other_emails := all_emails.filter (fun e => e != email),
    email_validated_at := some (s.email_validated_at.getD when) }

/-- A contest entry row (models.ContestEntry). -/
structure ContestEntry where
  id : Nat
  student : Nat
  contest : Nat
  roll : Int
  amount_won : Int
  creation_request_id : String
deriving DecidableEq, Repr

/-- models.ContestEntry.is_winner: roll == 0. -/
def ContestEntry.is_winner (e : ContestEntry) : Bool :=
  decide (e.roll = 0)

/-- models.ContestEntry.has_issued: bool(creation_request_id), i.e. the
string is nonempty. -/
def ContestEntry.has_issued (e : ContestEntry) : Bool :=
  !(e.creation_request_id == "")

/-- models.ContestEntry.needs_to_issue -/
def ContestEntry.needs_to_issue (e : ContestEntry) : Bool :=
  e.is_winner && !e.has_issued

/-- The two ValidationError messages raised by models.ContestEntry.clean. -/
inductive EntryValidationError
  | winnerWithoutPrize
  | loserWithPrize
deriving DecidableEq, Repr

/-- models.ContestEntry.clean -/
def ContestEntry.clean (e : ContestEntry) : Except EntryValidationError Unit :=
  if e.roll = 0 ∧ e.amount_won = 0 then
    Except.error EntryValidationError.winnerWithoutPrize
  else if e.roll ≠ 0 ∧ e.amount_won ≠ 0 then
    Except.error EntryValidationError.loserWithPrize
  else Except.ok ()

/-- An email validation link row (models.EmailValidationLink). -/
structure EmailValidationLink where
  id : Nat
  student : Nat
  email : String
  contest_entry : Option Nat
  token : String
  consumed_at : Option Int
deriving DecidableEq, Repr

/-- models.EmailValidationLink.is_consumed -/
def EmailValidationLink.is_consumed (l : EmailValidationLink) : Bool :=
  l.consumed_at.isSome

/-- models.EmailValidationLink.consume: sets consumed_at to when
(unconditionally, even if already set), then calls
student.mark_validated(self.email, when) on the owning student, which is
passed explicitly (the ORM join self.student). Returns the updated link
and student. -/
def EmailValidationLink.consume (l : EmailValidationLink) (s : Student) (when : Int) :
    EmailValidationLink × Student :=
  ({ l with consumed_at := some when }, s.mark_validated l.email when)

/-- The persisted database state: the row lists the embedded operations
touch, plus the autoincrement counter for ContestEntry primary keys. -/
structure DB where
  students : List Student
  entries : List ContestEntry
  links : List EmailValidationLink
  next_entry_id : Nat
deriving DecidableEq, Repr

/-- Student.objects.get(pk=i) as a partial lookup. -/
def DB.findStudent (db : DB) (i : Nat) : Option Student :=
  db.students.find? (fun s => s.id == i)

/-- ContestEntry.objects.get(pk=i) as a partial lookup. -/
def DB.findEntry (db : DB) (i : Nat) : Option ContestEntry :=
  db.entries.find? (fun e => e.id == i)

/-- ContestEntry.objects.get(student=s, contest=c): the lookup guarding
entry creation in ops.enter_contest. -/
def DB.findEntryFor (db : DB) (sid cid : Nat) : Option ContestEntry :=
  db.entries.find? (fun e => e.student == sid && e.contest == cid)

/-- Number of persisted ContestEntry rows for a (student, contest) pair. -/
def DB.countPair (db : DB) (sid cid : Nat) : Nat :=
  (db.entries.filter (fun e => e.student == sid && e.contest == cid)).length

/-- The database-level uniqueness constraint
unique_student_contest_gift_card on ContestEntry (student, contest)
(models.ContestEntry.Meta.constraints), as a decidable state predicate. -/
def entriesUniquePairs : List ContestEntry → Bool
  | [] => true
  | e :: rest =>
      rest.all (fun x => !(x.student == e.student && x.contest == e.contest))
        && entriesUniquePairs rest

/-- The (student, contest) uniqueness constraint holds of the database. -/
def DB.uniquePairs (db : DB) : Bool :=
  entriesUniquePairs db.entries

/-- student.save(): replace the row with the same primary key. -/
def DB.updateStudent (db : DB) (s : Student) : DB :=
  { db with students := db.students.map (fun x => if x.id == s.id then s else x) }

/-- contest_entry.save(): replace the row with the same primary key. -/
def DB.updateEntry (db : DB) (e : ContestEntry) : DB :=
  { db with entries := db.entries.map (fun x => if x.id == e.id then e else x) }

/-- link.save(): replace the row with the same primary key. -/
def DB.updateLink (db : DB) (l : EmailValidationLink) : DB :=
  { db with links := db.links.map (fun x => if x.id == l.id then l else x) }

/-!
The gift-card vendor (AGCOD). Modelled from the spec: the vendor is a
third party outside this repository; its behaviour is taken from the
idempotency contract quoted in the docstring of
utils/agcod.py AGCODClient.create_gift_card — re-use of the same
(creationRequestId, amount) pair returns the same gift card rather than
funding a new one. The vendor state records the cards funded so far and
the creationRequestIds of every request received, in order.
-/

/-- A gift card held by the vendor, keyed by the creation request id. -/
structure GiftCard where
  creation_request_id : String
  amount : Int
  gc_claim_code : String
deriving DecidableEq, Repr

/-- The fields of utils/agcod.py CreateGiftCardResponse that the
prize-issuance code reads. -/
structure CreateGiftCardResponse where
  creation_request_id : String
  gc_claim_code : String
deriving DecidableEq, Repr

/-- Errors of a vendor call: transport failure (network or non-2xx), or
a request re-using a creation request id with a different amount. -/
inductive AGCODError
  | transport
  | badAmount
deriving DecidableEq, Repr

/-- Vendor-side state. cards is the set of gift cards funded so far;
requests logs the creationRequestId of every CreateGiftCard request
received. -/
structure Vendor where
  cards : List GiftCard
  requests : List String
deriving DecidableEq, Repr

/-- Modelled from the spec: the vendor-side CreateGiftCard operation.
Idempotent per (creationRequestId, amount): a known id with the matching
amount returns the already-funded card; an unknown id funds a new card
whose claim code is the supplied fresh value. -/
def Vendor.createGiftCard (v : Vendor) (amount : Int) (reqId : String) (freshCode : String) :
    Except AGCODError (Vendor × CreateGiftCardResponse) :=
  let v1 := { v with requests := v.requests ++ [reqId] }
  match v.cards.find? (fun card => card.creation_request_id == reqId) with
  | some card =>
      if card.amount == amount then
        Except.ok (v1, { creation_request_id := reqId, gc_claim_code := card.gc_claim_code })
      else Except.error AGCODError.badAmount
  | none =>
      Except.ok
        ({ v1 with cards := v1.cards ++ [⟨reqId, amount, freshCode⟩] },
         { creation_request_id := reqId, gc_claim_code := freshCode })

/-- utils/agcod.py AGCODClient: only the partner_id field matters to the
request ids the prize-issuance logic sends. -/
structure AGCODClient where
  partner_id : String
deriving DecidableEq, Repr

/-- utils/agcod.py AGCODClient.make_request_id. When token is None a
random make_token(32) value is drawn; that draw is supplied as fresh. -/
def AGCODClient.make_request_id (client : AGCODClient) (token : Option String) (fresh : String) :
    String :=
  client.partner_id ++ "-" ++ token.getD fresh

/-- utils/agcod.py AGCODClient.create_gift_card. The Python
creation_request_id or self.make_request_id(None) idiom generates a
fresh id when the argument is absent or empty (falsy). ok models whether
the signed HTTP transport succeeds; freshId models the make_token(32)
draw and freshCode the claim code the vendor would assign to a newly
funded card. -/
def AGCODClient.create_gift_card (client : AGCODClient) (v : Vendor) (amount : Int)
    (creation_request_id : Option String) (freshId freshCode : String) (ok : Bool) :
    Except AGCODError (Vendor × CreateGiftCardResponse) :=
  if !ok then Except.error AGCODError.transport
  else
    let given := creation_request_id.getD ""
    let reqId := if given == "" then client.make_request_id none freshId else given
    v.createGiftCard amount reqId freshCode

/-- utils/agcod.py AGCODClient.check_gift_card: delegates to
create_gift_card with the existing creation request id. -/
def AGCODClient.check_gift_card (client : AGCODClient) (v : Vendor) (amount : Int)
    (creation_request_id : String) (freshId freshCode : String) (ok : Bool) :
    Except AGCODError (Vendor × CreateGiftCardResponse) :=
  client.create_gift_card v amount (some creation_request_id) freshId freshCode ok

/-!
The operations layer, src/server/vb/ops.py.
-/

/-- ops.ContestEntryPreconditionError, split by the two raise sites of
enter_contest. -/
inductive PreconditionError
  | notEligible
  | inactive
deriving DecidableEq, Repr

/-- The ValueError raised by ops._create_gift_card and
ops._get_claim_code when the AGCOD call fails. -/
inductive MintError
  | agcodFailed
deriving DecidableEq, Repr

/-- ops._create_contest_entry. Modelled from the spec: the body of
_create_contest_entry in the src snapshot of ops.py calls
Contest.mint_winner and writes a ContestEntry.amount field, neither of
which exists in the src snapshot of models.py (whose ContestEntry
requires roll and amount_won); per the spec the winner draw at entry
creation is Contest.roll_die_and_get_winnings and its (roll, amount_won)
result is persisted immediately on the newly created row. r is the
random draw consumed by the dice roll. -/
def _create_contest_entry (db : DB) (student : Student) (contest : Contest) (r : Int) :
    DB × ContestEntry :=
  let rolled := contest.roll_die_and_get_winnings r
  let e : ContestEntry :=
    { id := db.next_entry_id, student := student.id, contest := contest.id,
      roll := rolled.1, amount_won := rolled.2, creation_request_id := "" }
  ({ db with entries := db.entries ++ [e], next_entry_id := db.next_entry_id + 1 }, e)

/-- ops.enter_contest. when is the explicit clock (the Python default
django_now() is always supplied by the caller here); r is the random
draw consumed only if a new entry is created. Returns the entry and the
newly-created flag, or the precondition error raised. -/
def enter_contest (db : DB) (student : Student) (contest : Contest) (when : Int) (r : Int) :
    Except PreconditionError (DB × ContestEntry × Bool) :=
  if student.school ≠ contest.school then Except.error PreconditionError.notEligible
  else
    match db.findEntryFor student.id contest.id with
    | some contest_entry => Except.ok (db, contest_entry, false)
    | none =>
        if !(contest.is_ongoing when) then Except.error PreconditionError.inactive
        else
          let created := _create_contest_entry db student contest r
          Except.ok (created.1, created.2, true)

/-- Sequential iteration of ops.enter_contest for one (student, contest)
pair: each element of calls supplies the clock and the random draw of
one call; the entries returned by the calls are collected in order. -/
def enter_contest_many (db : DB) (student : Student) (contest : Contest) :
    List (Int × Int) → Except PreconditionError (DB × List (ContestEntry × Bool))
  | [] => Except.ok (db, [])
  | (when, r) :: rest =>
      match enter_contest db student contest when r with
      | Except.error err => Except.error err
      | Except.ok (db1, e, b) =>
          match enter_contest_many db1 student contest rest with
          | Except.error err => Except.error err
          | Except.ok (db2, res) => Except.ok (db2, (e, b) :: res)

/-- ops._create_gift_card. The src snapshot reads contest_entry.amount,
a field absent from the src snapshot of models.py; per the spec the
minted value is the amount_won persisted on the entry. On AGCOD failure
the ValueError propagates and neither the entry nor the vendor state is
changed; on success the creation_request_id from the response is
persisted on the entry. -/
def _create_gift_card (client : AGCODClient) (e : ContestEntry) (v : Vendor)
    (freshId freshCode : String) (ok : Bool) :
    Except MintError (ContestEntry × Vendor × String) :=
  match client.create_gift_card v e.amount_won none freshId freshCode ok with
  | Except.error _ => Except.error MintError.agcodFailed
  | Except.ok (v1, response) =>
      Except.ok ({ e with creation_request_id := response.creation_request_id },
                 v1, response.gc_claim_code)

/-- ops._get_claim_code: re-check the existing gift card through the
stored creation_request_id. -/
def _get_claim_code (client : AGCODClient) (e : ContestEntry) (v : Vendor)
    (freshId freshCode : String) (ok : Bool) :
    Except MintError (Vendor × String) :=
  match client.check_gift_card v e.amount_won e.creation_request_id freshId freshCode ok with
  | Except.error _ => Except.error MintError.agcodFailed
  | Except.ok (v1, response) => Except.ok (v1, response.gc_claim_code)

/-- ops.get_or_issue_prize. Returns the (possibly updated) entry, the
vendor state, and the claim code if any. The gift-card email dispatched
on the newly-issued path is a side effect outside the embedded state. -/
def get_or_issue_prize (client : AGCODClient) (e : ContestEntry) (v : Vendor)
    (freshId freshCode : String) (ok : Bool) :
    Except MintError (ContestEntry × Vendor × Option String) :=
  if e.is_winner then
    if e.has_issued then
      match _get_claim_code client e v freshId freshCode ok with
      | Except.error err => Except.error err
      | Except.ok (v1, claim_code) => Except.ok (e, v1, some claim_code)
    else
      match _create_gift_card client e v freshId freshCode ok with
      | Except.error err => Except.error err
      | Except.ok (e1, v1, claim_code) => Except.ok (e1, v1, some claim_code)
  else Except.ok (e, v, none)

/-!
The view layer, src/server/vb/views.py validate_email.
-/

/-- The failures of the validate_email view that abort the request: the
two get_object_or_404 lookups and the PermissionDenied school check.
Exceptions from get_or_issue_prize are caught inside the view and do not
appear here. -/
inductive ViewError
  | notFound
  | permissionDenied
deriving DecidableEq, Repr

/-- Foreign keys resolve and a link issued for a contest entry belongs
to the student who owns that entry, as guaranteed by the ORM and by
ops.send_validation_link_email (which receives the student together
with an entry of that student). Decidable over a concrete database. -/
def DB.wf (db : DB) : Bool :=
  db.links.all (fun l =>
    (db.findStudent l.student).isSome &&
    match l.contest_entry with
    | none => true
    | some eid => db.entries.all (fun e => !(e.id == eid) || e.student == l.student))

/-- views.validate_email. The link is looked up by its token, the slug
is the id of the school named in the URL, and when is the clock at
consumption. The result carries the new database and vendor states, the
claim code rendered (if any), and the error flag of the rendered page
(set when get_or_issue_prize raised). freshId, freshCode and ok
parameterize the vendor call exactly as in get_or_issue_prize. -/
def validate_email (db : DB) (v : Vendor) (client : AGCODClient) (slug : Nat)
    (token : String) (when : Int) (freshId freshCode : String) (ok : Bool) :
    Except ViewError (DB × Vendor × Option String × Bool) :=
  match db.links.find? (fun l => l.token == token) with
  | none => Except.error ViewError.notFound
  | some link =>
      match db.findStudent link.student with
      | none => Except.error ViewError.notFound
      | some st =>
          if st.school ≠ slug then Except.error ViewError.permissionDenied
          else
            let consumed := link.consume st when
            let db1 := (db.updateLink consumed.1).updateStudent consumed.2
            match link.contest_entry with
            | none => Except.ok (db1, v, none, false)
            | some eid =>
                match db1.findEntry eid with
                | none => Except.error ViewError.notFound
                | some contest_entry =>
                    if !contest_entry.is_winner then Except.ok (db1, v, none, false)
                    else
                      match get_or_issue_prize client contest_entry v freshId freshCode ok with
                      | Except.ok (e1, v1, claim_code) =>
                          Except.ok (db1.updateEntry e1, v1, claim_code, false)
                      | Except.error _ => Except.ok (db1, v, none, true)

/-- Whether an Except value is an error (a raised exception). -/
def exceptIsErr {ε α : Type} : Except ε α → Bool
  | Except.error _ => true
  | Except.ok _ => false

/-- Equality of Except values is decidable when both components are. -/
instance exceptDecEq {ε α : Type} [DecidableEq ε] [DecidableEq α] :
    DecidableEq (Except ε α) := fun a b =>
  match a, b with
  | Except.error x, Except.error y =>
      if h : x = y then isTrue (by rw [h])
      else isFalse (by intro hc; cases hc; exact h rfl)
  | Except.error _, Except.ok _ => isFalse (by intro hc; cases hc)
  | Except.ok _, Except.error _ => isFalse (by intro hc; cases hc)
  | Except.ok x, Except.ok y =>
      if h : x = y then isTrue (by rw [h])
      else isFalse (by intro hc; cases hc; exact h rfl)

/-!
Concrete fixtures used by counterexamples and witnesses.
-/

/-- A student of school 1 with no validated email. -/
def exStudent : Student :=
  { id := 1, school := 1, email := "alice@test.edu", other_emails := [],
    email_validated_at := none }

/-- A dice-roll contest of school 1, ongoing on [0, 100). -/
def exDice : Contest :=
  { id := 1, school := 1, start_at := 0, end_at := 100,
    kind := ContestKind.dice_roll, in_n := 6, amount := 25 }

/-- A giveaway contest of school 1 that ran on [0, 5). -/
def exPast : Contest :=
  { id := 2, school := 1, start_at := 0, end_at := 5,
    kind := ContestKind.giveaway, in_n := 1, amount := 25 }

/-- A giveaway contest of school 1 whose prize amount is zero. -/
def exGiveawayZero : Contest :=
  { id := 3, school := 1, start_at := 0, end_at := 100,
    kind := ContestKind.giveaway, in_n := 1, amount := 0 }

/-- A database holding just exStudent and no entries. -/
def exDB : DB :=
  { students := [exStudent], entries := [], links := [], next_entry_id := 1 }

/-- A winning, not yet issued contest entry of exStudent in exDice. -/
def exWinningEntry : ContestEntry :=
  { id := 1, student := 1, contest := 1, roll := 0, amount_won := 25,
    creation_request_id := "" }

/-- An unconsumed validation link of exStudent for exWinningEntry. -/
def exLink : EmailValidationLink :=
  { id := 1, student := 1, email := "alice@test.edu", contest_entry := some 1,
    token := "tok", consumed_at := none }

/-- A database holding exStudent, exWinningEntry and exLink. -/
def exDB7 : DB :=
  { students := [exStudent], entries := [exWinningEntry], links := [exLink],
    next_entry_id := 2 }

/-- The losing entry created when exStudent enters exDice with draw 1. -/
def exEntryLoser : ContestEntry :=
  { id := 1, student := 1, contest := 1, roll := 1, amount_won := 0,
    creation_request_id := "" }

/-- exDB after exStudent entered exDice with draw 1. -/
def exDBAfter : DB :=
  { students := [exStudent], entries := [exEntryLoser], links := [],
    next_entry_id := 2 }

/-- An AGCOD client with partner id Partner. -/
def exClient : AGCODClient := { partner_id := "Partner" }

/-- A vendor with no cards funded and no requests received. -/
def exVendor : Vendor := { cards := [], requests := [] }

/-!
Helper lemmas.
-/

/-- A string extended around a dash separator is never the empty string. -/
theorem append_dash_ne_empty (a b : String) : a ++ "-" ++ b ≠ "" := by
  intro h
  have h2 : (a ++ "-" ++ b).length = ("" : String).length := by rw [h]
  rw [String.length_append, String.length_append] at h2
  have hd : ("-" : String).length = 1 := rfl
  have he : ("" : String).length = 0 := rfl
  omega

/-- Replacing the row with a given key by a row carrying the same key
leaves that row findable, and the lookup now returns the replacement. -/
theorem find?_map_replace {α : Type} (key : α → Nat) (l : List α) (i : Nat) (x' : α)
    (hk : key x' = i) (h : (l.find? (fun x => key x == i)).isSome = true) :
    (l.map (fun x => if key x == key x' then x' else x)).find? (fun x => key x == i)
      = some x' := by
  induction l with
  | nil => simp [List.find?] at h
  | cons a l ih =>
      rw [List.map_cons]
      by_cases ha : key a = i
      · have h1 : (key a == key x') = true := by rw [hk]; exact beq_iff_eq.mpr ha
        rw [if_pos h1]
        exact List.find?_cons_of_pos _ (by rw [hk]; simp)
      · have hfa : (key a == i) = false := beq_eq_false_iff_ne.mpr ha
        have hfa2 : ¬(key a == key x') = true := by rw [hk]; simp [hfa]
        have h2 : (l.find? (fun x => key x == i)).isSome = true := by
          rw [List.find?_cons_of_neg _ (by simp [hfa])] at h
          exact h
        rw [if_neg hfa2, List.find?_cons_of_neg _ (by simp [hfa])]
        exact ih h2

/-- Boolean equality on Nat is symmetric. -/
theorem natBeq_comm (a b : Nat) : (a == b) = (b == a) := by
  rcases h : a == b
  · simp at h ⊢; omega
  · simp at h ⊢; omega

/-- The row-mismatch test on (student, contest) is symmetric. -/
theorem pairMismatch_comm (x y : ContestEntry) :
    (!(x.student == y.student && x.contest == y.contest))
      = (!(y.student == x.student && y.contest == x.contest)) := by
  rw [natBeq_comm x.student y.student, natBeq_comm x.contest y.contest]

/-- The uniqueness constraint survives appending a row that matches no
existing row on (student, contest). -/
theorem entriesUniquePairs_append (l : List ContestEntry) (e : ContestEntry)
    (h : entriesUniquePairs l = true)
    (hnone : l.all (fun x => !(x.student == e.student && x.contest == e.contest)) = true) :
    entriesUniquePairs (l ++ [e]) = true := by
  induction l with
  | nil => simp [entriesUniquePairs]
  | cons a l ih =>
      rw [entriesUniquePairs, Bool.and_eq_true] at h
      rw [List.all_cons, Bool.and_eq_true] at hnone
      rw [List.cons_append, entriesUniquePairs, Bool.and_eq_true]
      refine ⟨?_, ih h.2 hnone.2⟩
      rw [List.all_append, Bool.and_eq_true]
      refine ⟨h.1, ?_⟩
      simp only [List.all_cons, List.all_nil, Bool.and_true]
      rw [pairMismatch_comm]
      exact hnone.1

/-- An entry count of zero for a pair is the same as the guarding lookup
of enter_contest coming back empty. -/
theorem countPair_zero_iff_none (db : DB) (sid cid : Nat) :
    db.countPair sid cid = 0 ↔ db.findEntryFor sid cid = none := by
  unfold DB.countPair DB.findEntryFor
  rw [List.length_eq_zero, List.filter_eq_nil_iff, List.find?_eq_none]

/-- Creating an entry raises the count for its pair by exactly one. -/
theorem countPair_after_create (db : DB) (s : Student) (c : Contest) (r : Int) :
    ((_create_contest_entry db s c r).1).countPair s.id c.id
      = db.countPair s.id c.id + 1 := by
  unfold DB.countPair _create_contest_entry
  simp [List.filter_append, List.filter]

/-- After creation, the guarding lookup finds exactly the new row. -/
theorem findEntryFor_after_create (db : DB) (s : Student) (c : Contest) (r : Int)
    (hnone : db.findEntryFor s.id c.id = none) :
    ((_create_contest_entry db s c r).1).findEntryFor s.id c.id
      = some (_create_contest_entry db s c r).2 := by
  unfold DB.findEntryFor at hnone ⊢
  unfold _create_contest_entry
  simp [List.find?_append, hnone, List.find?]

/-- Creation preserves the (student, contest) uniqueness constraint. -/
theorem uniquePairs_after_create (db : DB) (s : Student) (c : Contest) (r : Int)
    (huniq : db.uniquePairs = true) (hnone : db.findEntryFor s.id c.id = none) :
    ((_create_contest_entry db s c r).1).uniquePairs = true := by
  unfold DB.findEntryFor at hnone
  have hforall := List.find?_eq_none.mp hnone
  unfold DB.uniquePairs at huniq ⊢
  show entriesUniquePairs (db.entries ++ [(_create_contest_entry db s c r).2]) = true
  apply entriesUniquePairs_append _ _ huniq
  rw [List.all_eq_true]
  intro x hx
  show (!(x.student == s.id && x.contest == c.id)) = true
  have h2 := hforall x hx
  rcases hb : (x.student == s.id && x.contest == c.id) with _ | _
  · simp [hb]
  · exact absurd hb h2

/-- enter_contest on a pair that already has a row returns that row
unchanged with the created flag false, whatever the clock and the
random draw. -/
theorem enter_contest_existing (db : DB) (s : Student) (c : Contest) (when r : Int)
    (e : ContestEntry) (hschool : s.school = c.school)
    (hsome : db.findEntryFor s.id c.id = some e) :
    enter_contest db s c when r = Except.ok (db, e, false) := by
  simp [enter_contest, hschool, hsome]

/-- enter_contest on a pair with no row, for an eligible student and an
ongoing contest, creates the row. -/
theorem enter_contest_creates (db : DB) (s : Student) (c : Contest) (when r : Int)
    (hschool : s.school = c.school) (hnone : db.findEntryFor s.id c.id = none)
    (hongoing : c.is_ongoing when = true) :
    enter_contest db s c when r
      = Except.ok ((_create_contest_entry db s c r).1,
                   (_create_contest_entry db s c r).2, true) := by
  simp [enter_contest, hschool, hnone, hongoing]

/-- Iterating enter_contest while the pair already has a row returns
that row on every call, leaving the database untouched. -/
theorem enter_contest_many_existing (db : DB) (s : Student) (c : Contest)
    (e : ContestEntry) (calls : List (Int × Int)) (hschool : s.school = c.school)
    (hsome : db.findEntryFor s.id c.id = some e) :
    enter_contest_many db s c calls
      = Except.ok (db, calls.map (fun _ => (e, false))) := by
  induction calls with
  | nil => simp [enter_contest_many]
  | cons p rest ih =>
      obtain ⟨w, r⟩ := p
      simp only [enter_contest_many, List.map_cons]
      rw [enter_contest_existing db s c w r e hschool hsome]
      simp [ih]

/-- A successful enter_contest either found a row and left the database
alone, or found none and appended exactly the created row. -/
theorem enter_contest_ok_cases (db : DB) (s : Student) (c : Contest) (when r : Int)
    (out : DB × ContestEntry × Bool)
    (h : enter_contest db s c when r = Except.ok out) :
    out.1 = db
    ∨ (db.findEntryFor s.id c.id = none ∧ out.1 = (_create_contest_entry db s c r).1) := by
  unfold enter_contest at h
  split at h
  · cases h
  · split at h
    next e heq =>
        left
        injection h with h1
        rw [← h1]
    next heq =>
        split at h
        · cases h
        · right
          refine ⟨heq, ?_⟩
          injection h with h1
          rw [← h1]

/-!
Gift-card helper lemmas.
-/

/-- A CreateGiftCard request with an unknown creation request id funds a
new card carrying the supplied fresh claim code. -/
theorem createGiftCard_mint (v : Vendor) (amount : Int) (rid code : String)
    (hfresh : v.cards.find? (fun card => card.creation_request_id == rid) = none) :
    v.createGiftCard amount rid code
      = Except.ok (⟨v.cards ++ [⟨rid, amount, code⟩], v.requests ++ [rid]⟩,
                   ⟨rid, code⟩) := by
  unfold Vendor.createGiftCard
  rw [hfresh]

/-- A CreateGiftCard request re-using a known creation request id with
the matching amount returns the already-funded card. -/
theorem createGiftCard_known (v : Vendor) (amount : Int) (rid code2 : String)
    (card : GiftCard)
    (hfound : v.cards.find? (fun c0 => c0.creation_request_id == rid) = some card)
    (hamount : card.amount = amount) :
    v.createGiftCard amount rid code2
      = Except.ok ({ v with requests := v.requests ++ [rid] },
                   ⟨rid, card.gc_claim_code⟩) := by
  unfold Vendor.createGiftCard
  rw [hfound]
  simp [hamount]

/-- create_gift_card without a request id generates the partner-prefixed
id from the fresh token and forwards to the vendor. -/
theorem create_gift_card_fresh_id (client : AGCODClient) (v : Vendor) (amount : Int)
    (fid fcd : String) :
    client.create_gift_card v amount none fid fcd true
      = v.createGiftCard amount (client.partner_id ++ "-" ++ fid) fcd := by
  unfold AGCODClient.create_gift_card AGCODClient.make_request_id
  simp

/-- check_gift_card with a nonempty stored id forwards exactly that id
to the vendor. -/
theorem check_gift_card_stored (client : AGCODClient) (v : Vendor) (amount : Int)
    (rid fid fcd : String) (hne : (rid == "") = false) :
    client.check_gift_card v amount rid fid fcd true
      = v.createGiftCard amount rid fcd := by
  unfold AGCODClient.check_gift_card AGCODClient.create_gift_card
  simp [hne]

/-- A transport failure surfaces from _create_gift_card as the
agcodFailed error, with no entry or vendor state returned. -/
theorem _create_gift_card_fail (client : AGCODClient) (e : ContestEntry) (v : Vendor)
    (fid fcd : String) :
    _create_gift_card client e v fid fcd false = Except.error MintError.agcodFailed := rfl

/-- The successful first mint for an unissued entry: the request id sent
is partner-prefixed around the fresh token, the vendor funds one card,
and the id is persisted on the returned entry. -/
theorem _create_gift_card_spec (client : AGCODClient) (e : ContestEntry) (v : Vendor)
    (fid fcd : String)
    (hfresh : v.cards.find?
        (fun card => card.creation_request_id == client.partner_id ++ "-" ++ fid) = none) :
    _create_gift_card client e v fid fcd true
      = Except.ok ({ e with creation_request_id := client.partner_id ++ "-" ++ fid },
          ⟨v.cards ++ [⟨client.partner_id ++ "-" ++ fid, e.amount_won, fcd⟩],
           v.requests ++ [client.partner_id ++ "-" ++ fid]⟩, fcd) := by
  unfold _create_gift_card
  rw [create_gift_card_fresh_id, createGiftCard_mint v e.amount_won _ fcd hfresh]

/-- The re-check path: with a nonempty stored id whose card is on file
with the matching amount, _get_claim_code returns the stored claim code
and the vendor receives exactly the stored id. -/
theorem _get_claim_code_spec (client : AGCODClient) (e : ContestEntry) (v : Vendor)
    (fid fcd : String) (card : GiftCard)
    (hne : (e.creation_request_id == "") = false)
    (hfound : v.cards.find?
        (fun c0 => c0.creation_request_id == e.creation_request_id) = some card)
    (hamount : card.amount = e.amount_won) :
    _get_claim_code client e v fid fcd true
      = Except.ok ({ v with requests := v.requests ++ [e.creation_request_id] },
                   card.gc_claim_code) := by
  unfold _get_claim_code
  rw [check_gift_card_stored client v e.amount_won _ fid fcd hne,
      createGiftCard_known v e.amount_won _ fcd card hfound hamount]

/-- get_or_issue_prize on a winning unissued entry takes the mint path. -/
theorem get_or_issue_prize_unissued (client : AGCODClient) (e : ContestEntry) (v : Vendor)
    (fid fcd : String) (ok : Bool)
    (hwinb : e.is_winner = true) (hib : e.has_issued = false) :
    get_or_issue_prize client e v fid fcd ok
      = match _create_gift_card client e v fid fcd ok with
        | Except.error err => Except.error err
        | Except.ok (e1, v1, code) => Except.ok (e1, v1, some code) := by
  unfold get_or_issue_prize
  rw [hwinb, hib]
  simp

/-- get_or_issue_prize on a winning issued entry takes the re-check path. -/
theorem get_or_issue_prize_issued (client : AGCODClient) (e : ContestEntry) (v : Vendor)
    (fid fcd : String) (ok : Bool)
    (hwinb : e.is_winner = true) (hib : e.has_issued = true) :
    get_or_issue_prize client e v fid fcd ok
      = match _get_claim_code client e v fid fcd ok with
        | Except.error err => Except.error err
        | Except.ok (v1, code) => Except.ok (e, v1, some code) := by
  unfold get_or_issue_prize
  rw [hwinb, hib]
  simp

/-- get_or_issue_prize on a winning entry whose persisted id has a card
on file returns that card through the stored id. -/
theorem get_or_issue_prize_recheck (client : AGCODClient) (e : ContestEntry) (v : Vendor)
    (fid fcd : String) (card : GiftCard)
    (hwinb : e.is_winner = true)
    (hne : (e.creation_request_id == "") = false)
    (hfound : v.cards.find?
        (fun c0 => c0.creation_request_id == e.creation_request_id) = some card)
    (hamount : card.amount = e.amount_won) :
    get_or_issue_prize client e v fid fcd true
      = Except.ok (e, { v with requests := v.requests ++ [e.creation_request_id] },
                   some card.gc_claim_code) := by
  have hib : e.has_issued = true := by
    simp [ContestEntry.has_issued, hne]
  rw [get_or_issue_prize_issued client e v fid fcd true hwinb hib,
      _get_claim_code_spec client e v fid fcd card hne hfound hamount]

/-- get_or_issue_prize on a winning issued entry fails cleanly when the
transport fails. -/
theorem get_or_issue_prize_transport_fail (client : AGCODClient) (e : ContestEntry)
    (v : Vendor) (fid fcd : String)
    (hwinb : e.is_winner = true) (hib : e.has_issued = true) :
    get_or_issue_prize client e v fid fcd false = Except.error MintError.agcodFailed := by
  rw [get_or_issue_prize_issued client e v fid fcd false hwinb hib]
  rfl

/-!
Claim theorems.
-/

/-- C1: for every (student, contest) pair there is at most one persisted
ContestEntry row in every reachable state: enter_contest preserves the
(student, contest) uniqueness constraint, and starting from a state with
no row for the pair, a run of N calls creates exactly one persisted row
and every call returns that same entry (hence the same identifier). -/
theorem contest_entry_uniqueness :
    (∀ (db : DB) (s : Student) (c : Contest) (when r : Int)
        (out : DB × ContestEntry × Bool),
        db.uniquePairs = true → enter_contest db s c when r = Except.ok out →
        out.1.uniquePairs = true)
    ∧ (∀ (db : DB) (s : Student) (c : Contest) (when0 r0 : Int)
        (rest : List (Int × Int)),
        s.school = c.school → db.uniquePairs = true →
        db.countPair s.id c.id = 0 → c.is_ongoing when0 = true →
        ∃ (db1 : DB) (e : ContestEntry),
          enter_contest_many db s c ((when0, r0) :: rest)
            = Except.ok (db1, (e, true) :: rest.map (fun _ => (e, false)))
          ∧ db1.countPair s.id c.id = 1 ∧ db1.uniquePairs = true) := by
  constructor
  · intro db s c when r out huniq h
    rcases enter_contest_ok_cases db s c when r out h with h1 | ⟨hnone, h1⟩
    · rw [h1]; exact huniq
    · rw [h1]; exact uniquePairs_after_create db s c r huniq hnone
  · intro db s c when0 r0 rest hschool huniq hzero hongoing
    have hnone := (countPair_zero_iff_none db s.id c.id).mp hzero
    refine ⟨(_create_contest_entry db s c r0).1, (_create_contest_entry db s c r0).2,
      ?_, ?_, ?_⟩
    · simp only [enter_contest_many]
      rw [enter_contest_creates db s c when0 r0 hschool hnone hongoing]
      simp [enter_contest_many_existing (_create_contest_entry db s c r0).1 s c
        (_create_contest_entry db s c r0).2 rest hschool
        (findEntryFor_after_create db s c r0 hnone)]
    · rw [countPair_after_create, hzero]
    · exact uniquePairs_after_create db s c r0 huniq hnone

/-- C1 witness: a concrete three-call run against exDice creates one row
and keeps returning it. -/
theorem contest_entry_uniqueness_witness :
    ∃ (db1 : DB) (e : ContestEntry),
      enter_contest_many exDB exStudent exDice ((10, 1) :: [(20, 0), (30, 2)])
        = Except.ok (db1, (e, true) :: [(20, 0), (30, 2)].map (fun _ => (e, false)))
      ∧ db1.countPair exStudent.id exDice.id = 1 ∧ db1.uniquePairs = true :=
  contest_entry_uniqueness.2 exDB exStudent exDice 10 1 [(20, 0), (30, 2)]
    (by decide) (by decide) (by decide) (by decide)

/-- C2: the roll happens exactly once, at entry creation, and its
(roll, amount_won) result is persisted on the new row; a later
enter_contest call for the same pair returns that row unchanged with the
created flag false, for any later clock and any later random draw. -/
theorem entry_roll_persisted_no_reroll (db db1 : DB) (s : Student) (c : Contest)
    (when r when2 r2 : Int) (e : ContestEntry)
    (h : enter_contest db s c when r = Except.ok (db1, e, true)) :
    (e.roll, e.amount_won) = c.roll_die_and_get_winnings r
    ∧ enter_contest db1 s c when2 r2 = Except.ok (db1, e, false) := by
  unfold enter_contest at h
  split at h
  · cases h
  next hs =>
    split at h
    next e0 heq => simp at h
    next heq =>
      split at h
      · cases h
      next ho =>
        simp only [Except.ok.injEq, Prod.mk.injEq] at h
        obtain ⟨hdb, he, -⟩ := h
        have hschool : s.school = c.school := not_not.mp hs
        constructor
        · rw [← he]
          exact Prod.mk.eta
        · rw [← hdb, ← he]
          exact enter_contest_existing _ s c when2 r2 _ hschool
            (findEntryFor_after_create db s c r heq)

/-- C2 witness: a concrete first call persists the draw and the second
call returns the identical row with the flag false. -/
theorem entry_roll_persisted_no_reroll_witness :
    (exEntryLoser.roll, exEntryLoser.amount_won) = exDice.roll_die_and_get_winnings 1
    ∧ enter_contest exDBAfter exStudent exDice 20 5
        = Except.ok (exDBAfter, exEntryLoser, false) :=
  entry_roll_persisted_no_reroll exDB exDBAfter exStudent exDice 10 1 20 5
    exEntryLoser (by decide)

/-- C3 counterexample: for an eligible student with no existing entry
and a contest that is already past, enter_contest raises the
precondition error instead of recording a losing entry with
roll = 1 and isNewlyCreated = true as the claim states. -/
theorem late_entry_rejected_cex :
    exStudent.school = exPast.school
    ∧ exDB.countPair exStudent.id exPast.id = 0
    ∧ exPast.is_past 10 = true
    ∧ enter_contest exDB exStudent exPast 10 1
        = Except.error PreconditionError.inactive := by
  decide

/-- C3 amended: when enter_contest is called for a pair with no existing
entry, any contest that is not ongoing at the given time — Upcoming or
Past alike — is rejected with the inactive precondition failure and no
entry is recorded. -/
theorem non_ongoing_entry_rejected (db : DB) (s : Student) (c : Contest) (when r : Int)
    (hschool : s.school = c.school) (hnone : db.findEntryFor s.id c.id = none) :
    (c.is_upcoming when = true ∨ c.is_past when = true → c.is_ongoing when = false)
    ∧ (c.is_ongoing when = false →
        enter_contest db s c when r = Except.error PreconditionError.inactive) := by
  constructor
  · intro hcase
    unfold Contest.is_upcoming Contest.is_past at hcase
    unfold Contest.is_ongoing
    rcases hcase with hc | hc <;> simp at hc ⊢ <;> omega
  · intro hno
    simp [enter_contest, hschool, hnone, hno]

/-- C3 amended witness: the concrete past contest is rejected. -/
theorem non_ongoing_entry_rejected_witness :
    (exPast.is_upcoming 10 = true ∨ exPast.is_past 10 = true →
      exPast.is_ongoing 10 = false)
    ∧ (exPast.is_ongoing 10 = false →
        enter_contest exDB exStudent exPast 10 1
          = Except.error PreconditionError.inactive) :=
  non_ongoing_entry_rejected exDB exStudent exPast 10 1 (by decide) (by decide)

/-- C6: roll_die_and_get_winnings returns (1, 0) for NO_PRIZE and
SINGLE_WINNER contests, (0, amount) for GIVEAWAY contests, and for
DICE_ROLL contests returns (r, amount if r = 0 else 0) with the roll
staying inside [0, in_n) whenever the drawn value is. -/
theorem roll_die_and_get_winnings_spec (c : Contest) (r : Int) :
    ((c.kind = ContestKind.no_prize ∨ c.kind = ContestKind.single_winner) →
        c.roll_die_and_get_winnings r = (1, 0))
    ∧ (c.kind = ContestKind.giveaway →
        c.roll_die_and_get_winnings r = (0, c.amount))
    ∧ (c.kind = ContestKind.dice_roll → 0 ≤ r → r < c.in_n →
        c.roll_die_and_get_winnings r = (r, if r = 0 then c.amount else 0)
        ∧ 0 ≤ (c.roll_die_and_get_winnings r).1
        ∧ (c.roll_die_and_get_winnings r).1 < c.in_n) := by
  refine ⟨?_, ?_, ?_⟩
  · rintro (hk | hk) <;>
      simp [Contest.roll_die_and_get_winnings, Contest.is_no_prize,
        Contest.is_single_winner, hk]
  · intro hk
    simp [Contest.roll_die_and_get_winnings, Contest.is_no_prize,
      Contest.is_single_winner, Contest.is_giveaway, hk]
  · intro hk h0 hn
    have hs : c.roll_die_and_get_winnings r = (r, if r = 0 then c.amount else 0) := by
      simp [Contest.roll_die_and_get_winnings, Contest.is_no_prize,
        Contest.is_single_winner, Contest.is_giveaway, hk]
    refine ⟨hs, ?_, ?_⟩ <;> rw [hs]
    · exact h0
    · exact hn

/-- C6 witness: the dice branch at a concrete contest and draw. -/
theorem roll_die_and_get_winnings_spec_witness :
    exDice.roll_die_and_get_winnings 1 = (1, if (1 : Int) = 0 then exDice.amount else 0)
    ∧ 0 ≤ (exDice.roll_die_and_get_winnings 1).1
    ∧ (exDice.roll_die_and_get_winnings 1).1 < exDice.in_n :=
  (roll_die_and_get_winnings_spec exDice 1).2.2 (by decide) (by decide) (by decide)

/-- C9: consuming an already-consumed link re-applies the same
downstream effect (the student state, including email_validated_at,
keeps its first-set value) but consume overwrites consumed_at with the
later time, contradicting the model field documentation that it records
the first consumption. -/
theorem consume_overwrites_consumed_at :
    ((exLink.consume exStudent 1).1).consumed_at = some 1
    ∧ (((exLink.consume exStudent 1).1.consume ((exLink.consume exStudent 1).2) 2).1).consumed_at
        = some 2
    ∧ (((exLink.consume exStudent 1).1.consume ((exLink.consume exStudent 1).2) 2).2).email_validated_at
        = some 1
    ∧ ((exLink.consume exStudent 1).1.consume ((exLink.consume exStudent 1).2) 2).2
        = (exLink.consume exStudent 1).2 := by
  decide

/-- C10: clean raises exactly when the entry is a winner without a prize
amount or a non-winner with a prize amount; in particular the entry a
zero-amount giveaway creates is rejected. -/
theorem clean_spec (e : ContestEntry) (c : Contest) (db : DB) (s : Student) (r : Int) :
    (exceptIsErr e.clean = true
      ↔ ((e.roll = 0 ∧ e.amount_won = 0) ∨ (e.roll ≠ 0 ∧ e.amount_won ≠ 0)))
    ∧ (c.kind = ContestKind.giveaway → c.amount = 0 →
        exceptIsErr ((_create_contest_entry db s c r).2).clean = true) := by
  constructor
  · unfold ContestEntry.clean
    by_cases h1 : e.roll = 0 ∧ e.amount_won = 0
    · simp [h1, exceptIsErr]
    · by_cases h2 : e.roll ≠ 0 ∧ e.amount_won ≠ 0
      · simp [h1, h2, exceptIsErr]
      · simp [h1, h2, exceptIsErr]
  · intro hk h0
    have hrd : c.roll_die_and_get_winnings r = (0, c.amount) := by
      simp [Contest.roll_die_and_get_winnings, Contest.is_no_prize,
        Contest.is_single_winner, Contest.is_giveaway, hk]
    unfold _create_contest_entry ContestEntry.clean
    simp [hrd, h0, exceptIsErr]

/-- C10 witness: the iff at a concrete losing entry, and the rejection
of the entry created by the concrete zero-amount giveaway. -/
theorem clean_spec_witness :
    (exceptIsErr exEntryLoser.clean = true
      ↔ ((exEntryLoser.roll = 0 ∧ exEntryLoser.amount_won = 0)
          ∨ (exEntryLoser.roll ≠ 0 ∧ exEntryLoser.amount_won ≠ 0)))
    ∧ exceptIsErr ((_create_contest_entry exDB exStudent exGiveawayZero 0).2).clean = true :=
  ⟨(clean_spec exEntryLoser exGiveawayZero exDB exStudent 0).1,
   (clean_spec exEntryLoser exGiveawayZero exDB exStudent 0).2 (by decide) (by decide)⟩


/-- C4: issuing a prize is idempotent: for a winning unissued entry, the
first successful call mints exactly one card and persists the request id
on the entry as a one-way latch, and a second call returns the same
claim code through the stored id without minting again and without
touching the entry. -/
theorem mint_idempotent (client : AGCODClient) (e : ContestEntry) (v : Vendor)
    (t1 cd1 t2 cd2 : String)
    (hwin : e.roll = 0) (hunissued : e.creation_request_id = "")
    (hfresh : v.cards.find?
        (fun card => card.creation_request_id == client.partner_id ++ "-" ++ t1) = none) :
    ∃ (e1 : ContestEntry) (v1 v2 : Vendor),
      get_or_issue_prize client e v t1 cd1 true = Except.ok (e1, v1, some cd1)
      ∧ get_or_issue_prize client e1 v1 t2 cd2 true = Except.ok (e1, v2, some cd1)
      ∧ e1.creation_request_id = client.partner_id ++ "-" ++ t1
      ∧ e1.roll = e.roll ∧ e1.amount_won = e.amount_won ∧ e1.id = e.id
      ∧ v1.cards = v.cards ++ [⟨client.partner_id ++ "-" ++ t1, e.amount_won, cd1⟩]
      ∧ v2.cards = v1.cards := by
  have hwinb : e.is_winner = true := by simp [ContestEntry.is_winner, hwin]
  have hib : e.has_issued = false := by simp [ContestEntry.has_issued, hunissued]
  have hne : (client.partner_id ++ "-" ++ t1 == "") = false :=
    beq_eq_false_iff_ne.mpr (append_dash_ne_empty _ _)
  have hw1 : ContestEntry.is_winner
      { e with creation_request_id := client.partner_id ++ "-" ++ t1 } = true := by
    simp [ContestEntry.is_winner, hwin]
  have hi1 : ContestEntry.has_issued
      { e with creation_request_id := client.partner_id ++ "-" ++ t1 } = true := by
    simp [ContestEntry.has_issued, hne]
  have hfound : (v.cards
      ++ [(⟨client.partner_id ++ "-" ++ t1, e.amount_won, cd1⟩ : GiftCard)]).find?
        (fun c0 => c0.creation_request_id == client.partner_id ++ "-" ++ t1)
      = some ⟨client.partner_id ++ "-" ++ t1, e.amount_won, cd1⟩ := by
    simp [List.find?_append, hfresh, List.find?]
  refine ⟨{ e with creation_request_id := client.partner_id ++ "-" ++ t1 },
    ⟨v.cards ++ [⟨client.partner_id ++ "-" ++ t1, e.amount_won, cd1⟩],
     v.requests ++ [client.partner_id ++ "-" ++ t1]⟩,
    ⟨v.cards ++ [⟨client.partner_id ++ "-" ++ t1, e.amount_won, cd1⟩],
     (v.requests ++ [client.partner_id ++ "-" ++ t1])
       ++ [client.partner_id ++ "-" ++ t1]⟩,
    ?_, ?_, rfl, rfl, rfl, rfl, rfl, rfl⟩
  · rw [get_or_issue_prize_unissued client e v t1 cd1 true hwinb hib,
        _create_gift_card_spec client e v t1 cd1 hfresh]
  · exact get_or_issue_prize_recheck client
      { e with creation_request_id := client.partner_id ++ "-" ++ t1 }
      ⟨v.cards ++ [⟨client.partner_id ++ "-" ++ t1, e.amount_won, cd1⟩],
       v.requests ++ [client.partner_id ++ "-" ++ t1]⟩
      t2 cd2 ⟨client.partner_id ++ "-" ++ t1, e.amount_won, cd1⟩ hw1 hne hfound rfl

/-- C4 witness: a concrete winning entry minted once, re-checked once. -/
theorem mint_idempotent_witness :
    ∃ (e1 : ContestEntry) (v1 v2 : Vendor),
      get_or_issue_prize exClient exWinningEntry exVendor "aaaa" "C1" true
        = Except.ok (e1, v1, some "C1")
      ∧ get_or_issue_prize exClient e1 v1 "bbbb" "C2" true
        = Except.ok (e1, v2, some "C1")
      ∧ e1.creation_request_id = exClient.partner_id ++ "-" ++ "aaaa"
      ∧ e1.roll = exWinningEntry.roll ∧ e1.amount_won = exWinningEntry.amount_won
      ∧ e1.id = exWinningEntry.id
      ∧ v1.cards = exVendor.cards
          ++ [⟨exClient.partner_id ++ "-" ++ "aaaa", exWinningEntry.amount_won, "C1"⟩]
      ∧ v2.cards = v1.cards :=
  mint_idempotent exClient exWinningEntry exVendor "aaaa" "C1" "bbbb" "C2"
    (by decide) (by decide) (by decide)

/-- C5: a vendor failure while minting propagates as the agcodFailed
error and writes nothing — the entry still needs to issue — and a later
retry on the same entry mints normally. -/
theorem mint_failure_retryable (client : AGCODClient) (e : ContestEntry) (v : Vendor)
    (t cd t2 cd2 : String)
    (hwin : e.roll = 0) (hunissued : e.creation_request_id = "")
    (hfresh : v.cards.find?
        (fun card => card.creation_request_id == client.partner_id ++ "-" ++ t2) = none) :
    get_or_issue_prize client e v t cd false = Except.error MintError.agcodFailed
    ∧ e.needs_to_issue = true
    ∧ get_or_issue_prize client e v t2 cd2 true
        = Except.ok ({ e with creation_request_id := client.partner_id ++ "-" ++ t2 },
            ⟨v.cards ++ [⟨client.partner_id ++ "-" ++ t2, e.amount_won, cd2⟩],
             v.requests ++ [client.partner_id ++ "-" ++ t2]⟩, some cd2) := by
  have hwinb : e.is_winner = true := by simp [ContestEntry.is_winner, hwin]
  have hib : e.has_issued = false := by simp [ContestEntry.has_issued, hunissued]
  refine ⟨?_, ?_, ?_⟩
  · rw [get_or_issue_prize_unissued client e v t cd false hwinb hib,
        _create_gift_card_fail]
  · simp [ContestEntry.needs_to_issue, hwinb, hib]
  · rw [get_or_issue_prize_unissued client e v t2 cd2 true hwinb hib,
        _create_gift_card_spec client e v t2 cd2 hfresh]

/-- C5 witness: the concrete winning entry survives a failed mint and a
retry succeeds. -/
theorem mint_failure_retryable_witness :
    get_or_issue_prize exClient exWinningEntry exVendor "aaaa" "C1" false
      = Except.error MintError.agcodFailed
    ∧ exWinningEntry.needs_to_issue = true
    ∧ get_or_issue_prize exClient exWinningEntry exVendor "bbbb" "C2" true
        = Except.ok ({ exWinningEntry with
              creation_request_id := exClient.partner_id ++ "-" ++ "bbbb" },
            ⟨exVendor.cards
              ++ [⟨exClient.partner_id ++ "-" ++ "bbbb", exWinningEntry.amount_won, "C2"⟩],
             exVendor.requests ++ [exClient.partner_id ++ "-" ++ "bbbb"]⟩, some "C2") :=
  mint_failure_retryable exClient exWinningEntry exVendor "aaaa" "C1" "bbbb" "C2"
    (by decide) (by decide) (by decide)

/-- C8 counterexample: the request id sent at the first mint is built
from the fresh random make_token draw made at mint time, not from
identifiers fixed at entry-creation time: minting the very same unissued
entry with two different draws sends two different request ids. -/
theorem request_id_from_fresh_token_cex :
    _create_gift_card exClient exWinningEntry exVendor "aaaa" "C1" true
      = Except.ok ({ exWinningEntry with creation_request_id := "Partner-aaaa" },
          ⟨[⟨"Partner-aaaa", 25, "C1"⟩], ["Partner-aaaa"]⟩, "C1")
    ∧ _create_gift_card exClient exWinningEntry exVendor "bbbb" "C1" true
      = Except.ok ({ exWinningEntry with creation_request_id := "Partner-bbbb" },
          ⟨[⟨"Partner-bbbb", 25, "C1"⟩], ["Partner-bbbb"]⟩, "C1")
    ∧ ("Partner-aaaa" : String) ≠ "Partner-bbbb" := by decide

/-- C8 amended: every request id the adapter sends has the form
partner_id-suffix; at the first mint for an entry the suffix is the
fresh random token drawn at that moment, the full id is persisted on the
entry on success, and every later call for that entry re-sends exactly
the persisted id — its result does not depend on any later draw. -/
theorem request_id_stable_after_mint (client : AGCODClient) (e : ContestEntry) (v : Vendor)
    (fid fcd t1 cd1 t2 cd2 : String)
    (hwin : e.roll = 0) (hunissued : e.creation_request_id = "")
    (hfresh : v.cards.find?
        (fun card => card.creation_request_id == client.partner_id ++ "-" ++ fid) = none) :
    ∃ (e1 : ContestEntry) (v1 : Vendor),
      _create_gift_card client e v fid fcd true = Except.ok (e1, v1, fcd)
      ∧ e1.creation_request_id = client.partner_id ++ "-" ++ fid
      ∧ v1.requests = v.requests ++ [client.partner_id ++ "-" ++ fid]
      ∧ (∀ ok, get_or_issue_prize client e1 v1 t1 cd1 ok
            = get_or_issue_prize client e1 v1 t2 cd2 ok)
      ∧ ∃ v2, get_or_issue_prize client e1 v1 t1 cd1 true
            = Except.ok (e1, v2, some fcd)
          ∧ v2.requests = v1.requests ++ [e1.creation_request_id] := by
  have hne : (client.partner_id ++ "-" ++ fid == "") = false :=
    beq_eq_false_iff_ne.mpr (append_dash_ne_empty _ _)
  have hw1 : ContestEntry.is_winner
      { e with creation_request_id := client.partner_id ++ "-" ++ fid } = true := by
    simp [ContestEntry.is_winner, hwin]
  have hi1 : ContestEntry.has_issued
      { e with creation_request_id := client.partner_id ++ "-" ++ fid } = true := by
    simp [ContestEntry.has_issued, hne]
  have hfound : (v.cards
      ++ [(⟨client.partner_id ++ "-" ++ fid, e.amount_won, fcd⟩ : GiftCard)]).find?
        (fun c0 => c0.creation_request_id == client.partner_id ++ "-" ++ fid)
      = some ⟨client.partner_id ++ "-" ++ fid, e.amount_won, fcd⟩ := by
    simp [List.find?_append, hfresh, List.find?]
  refine ⟨{ e with creation_request_id := client.partner_id ++ "-" ++ fid },
    ⟨v.cards ++ [⟨client.partner_id ++ "-" ++ fid, e.amount_won, fcd⟩],
     v.requests ++ [client.partner_id ++ "-" ++ fid]⟩,
    _create_gift_card_spec client e v fid fcd hfresh, rfl, rfl, ?_, ?_⟩
  · intro ok
    cases ok with
    | false =>
        have h1 := get_or_issue_prize_transport_fail client
          { e with creation_request_id := client.partner_id ++ "-" ++ fid }
          ⟨v.cards ++ [⟨client.partner_id ++ "-" ++ fid, e.amount_won, fcd⟩],
           v.requests ++ [client.partner_id ++ "-" ++ fid]⟩ t1 cd1 hw1 hi1
        have h2 := get_or_issue_prize_transport_fail client
          { e with creation_request_id := client.partner_id ++ "-" ++ fid }
          ⟨v.cards ++ [⟨client.partner_id ++ "-" ++ fid, e.amount_won, fcd⟩],
           v.requests ++ [client.partner_id ++ "-" ++ fid]⟩ t2 cd2 hw1 hi1
        rw [h1, h2]
    | true =>
        have h1 := get_or_issue_prize_recheck client
          { e with creation_request_id := client.partner_id ++ "-" ++ fid }
          ⟨v.cards ++ [⟨client.partner_id ++ "-" ++ fid, e.amount_won, fcd⟩],
           v.requests ++ [client.partner_id ++ "-" ++ fid]⟩
          t1 cd1 ⟨client.partner_id ++ "-" ++ fid, e.amount_won, fcd⟩ hw1 hne hfound rfl
        have h2 := get_or_issue_prize_recheck client
          { e with creation_request_id := client.partner_id ++ "-" ++ fid }
          ⟨v.cards ++ [⟨client.partner_id ++ "-" ++ fid, e.amount_won, fcd⟩],
           v.requests ++ [client.partner_id ++ "-" ++ fid]⟩
          t2 cd2 ⟨client.partner_id ++ "-" ++ fid, e.amount_won, fcd⟩ hw1 hne hfound rfl
        rw [h1, h2]
  · refine ⟨⟨v.cards ++ [⟨client.partner_id ++ "-" ++ fid, e.amount_won, fcd⟩],
      (v.requests ++ [client.partner_id ++ "-" ++ fid])
        ++ [client.partner_id ++ "-" ++ fid]⟩, ?_, rfl⟩
    exact get_or_issue_prize_recheck client
      { e with creation_request_id := client.partner_id ++ "-" ++ fid }
      ⟨v.cards ++ [⟨client.partner_id ++ "-" ++ fid, e.amount_won, fcd⟩],
       v.requests ++ [client.partner_id ++ "-" ++ fid]⟩
      t1 cd1 ⟨client.partner_id ++ "-" ++ fid, e.amount_won, fcd⟩ hw1 hne hfound rfl

/-- C8 amended witness: a concrete mint and a later call re-using the
persisted id. -/
theorem request_id_stable_after_mint_witness :
    ∃ (e1 : ContestEntry) (v1 : Vendor),
      _create_gift_card exClient exWinningEntry exVendor "aaaa" "C1" true
        = Except.ok (e1, v1, "C1")
      ∧ e1.creation_request_id = exClient.partner_id ++ "-" ++ "aaaa"
      ∧ v1.requests = exVendor.requests ++ [exClient.partner_id ++ "-" ++ "aaaa"]
      ∧ (∀ ok, get_or_issue_prize exClient e1 v1 "bbbb" "C2" ok
            = get_or_issue_prize exClient e1 v1 "cccc" "C3" ok)
      ∧ ∃ v2, get_or_issue_prize exClient e1 v1 "bbbb" "C2" true
            = Except.ok (e1, v2, some "C1")
          ∧ v2.requests = v1.requests ++ [e1.creation_request_id] :=
  request_id_stable_after_mint exClient exWinningEntry exVendor "aaaa" "C1"
    "bbbb" "C2" "cccc" "C3" (by decide) (by decide) (by decide)


/-- C7: the validate_email flow never renders a claim code for an entry
whose student is unvalidated: whenever it returns a non-null claim code,
the link found by the token carries the prize entry, that entry belongs
to the student of the link, and in the resulting database that student
has a non-null email_validated_at — consumption of the link, which
validates the student, happened before issuance. -/
theorem validation_gate (db : DB) (v : Vendor) (client : AGCODClient) (slug : Nat)
    (token : String) (when : Int) (freshId freshCode : String) (ok : Bool)
    (db1 : DB) (v1 : Vendor) (code : String) (err : Bool)
    (hwf : db.wf = true)
    (h : validate_email db v client slug token when freshId freshCode ok
          = Except.ok (db1, v1, some code, err)) :
    ∃ (link : EmailValidationLink) (ce : ContestEntry) (st : Student),
      db.links.find? (fun l => l.token == token) = some link
      ∧ link.contest_entry = some ce.id
      ∧ ce.student = link.student
      ∧ db1.findStudent ce.student = some st
      ∧ st.email_validated_at.isSome = true := by
  cases hfind : db.links.find? (fun l => l.token == token) with
  | none => simp [validate_email, hfind] at h
  | some link =>
  cases hstud : db.findStudent link.student with
  | none => simp [validate_email, hfind, hstud] at h
  | some st0 =>
  by_cases hsl : st0.school = slug
  case neg => simp [validate_email, hfind, hstud, hsl] at h
  case pos =>
  cases hce : link.contest_entry with
  | none => simp [validate_email, hfind, hstud, hsl, hce] at h
  | some eid =>
  have hent2 : DB.findEntry
      ((db.updateLink (link.consume st0 when).1).updateStudent (link.consume st0 when).2)
        eid = db.findEntry eid := rfl
  cases hentry : db.findEntry eid with
  | none => simp [validate_email, hfind, hstud, hsl, hce, hent2, hentry] at h
  | some ce =>
  cases hw : ce.is_winner with
  | false => simp [validate_email, hfind, hstud, hsl, hce, hent2, hentry, hw] at h
  | true =>
  cases hgp : get_or_issue_prize client ce v freshId freshCode ok with
  | error err2 =>
      simp [validate_email, hfind, hstud, hsl, hce, hent2, hentry, hw, hgp] at h
  | ok y =>
  obtain ⟨e1, v1x, cc⟩ := y
  simp only [validate_email, hfind, hstud, hsl, hce, hent2, hentry, hw, hgp,
    Bool.not_true, if_false, ite_false, Except.ok.injEq, Prod.mk.injEq, ne_eq,
    not_true_eq_false, if_true, ite_true, not_false_eq_true] at h
  obtain ⟨hdb1, hv1, hcc, herr⟩ := h
  have hceid : ce.id = eid := by
    have hp := List.find?_some
      (show db.entries.find? (fun x => x.id == eid) = some ce from hentry)
    exact eq_of_beq hp
  have hst0id : st0.id = link.student := by
    have hp := List.find?_some
      (show db.students.find? (fun x => x.id == link.student) = some st0 from hstud)
    exact eq_of_beq hp
  have hlmem : link ∈ db.links := List.mem_of_find?_eq_some hfind
  have hcemem : ce ∈ db.entries := List.mem_of_find?_eq_some
    (show db.entries.find? (fun x => x.id == eid) = some ce from hentry)
  unfold DB.wf at hwf
  have hall := List.all_eq_true.mp hwf link hlmem
  simp only [hce, Bool.and_eq_true] at hall
  have hmatch := List.all_eq_true.mp hall.2 ce hcemem
  have hbeq : (ce.id == eid) = true := beq_iff_eq.mpr hceid
  rw [hbeq] at hmatch
  simp at hmatch
  have hstudent_eq : ce.student = link.student := hmatch
  have hsome2 : (db.students.find? (fun x => x.id == link.student)).isSome = true := by
    rw [show db.students.find? (fun x => x.id == link.student) = some st0 from hstud]
    rfl
  have hk : (st0.mark_validated link.email when).id = link.student := hst0id
  have hrepl := find?_map_replace Student.id db.students link.student
    (st0.mark_validated link.email when) hk hsome2
  refine ⟨link, ce, st0.mark_validated link.email when, rfl, ?_, hstudent_eq, ?_, rfl⟩
  · rw [hceid]
    exact hce
  · rw [hstudent_eq]
    exact hrepl

/-- C7 witness: the concrete winning scenario renders a claim code and
the student of the entry stands validated in the final state. -/
theorem validation_gate_witness :
    ∃ (link : EmailValidationLink) (ce : ContestEntry) (st : Student),
      exDB7.links.find? (fun l => l.token == "tok") = some link
      ∧ link.contest_entry = some ce.id
      ∧ ce.student = link.student
      ∧ DB.findStudent
          { students := [{ exStudent with email_validated_at := some 7 }],
            entries := [{ exWinningEntry with creation_request_id := "Partner-aaaa" }],
            links := [{ exLink with consumed_at := some 7 }],
            next_entry_id := 2 } ce.student = some st
      ∧ st.email_validated_at.isSome = true :=
  validation_gate exDB7 exVendor exClient 1 "tok" 7 "aaaa" "CODE" true
    { students := [{ exStudent with email_validated_at := some 7 }],
      entries := [{ exWinningEntry with creation_request_id := "Partner-aaaa" }],
      links := [{ exLink with consumed_at := some 7 }],
      next_entry_id := 2 }
    ⟨[⟨"Partner-aaaa", 25, "CODE"⟩], ["Partner-aaaa"]⟩ "CODE" false
    (by decide) (by decide)

end Voterbowl
